import Mathlib

/-!
Verification of the BSK training-optimization backend: a shallow embedding of
`backend/app/data_loader.py` (location resolution, CSV loading with caching and
normalization) and of the read handlers of `backend/app/main.py` (pagination,
key lookup, and the `/underperforming_bsks/` analytics orchestration).

Modelling conventions:
- A pandas `DataFrame` is a `DF`: a list of column names and rows of optional
  cells, `none` standing for pandas `NaN` (a blank or absent field in a
  delimited source row is parsed to `NaN` by `read_csv`).
- Filesystem state is a `FileSystem`: a file-existence predicate plus a
  `readCsv` oracle; `readCsv` returning `none` models a read raising.
- `load_csv_data` is modelled with explicit state passing: it takes the cache
  variable `_data_cache` as an argument and returns the result, the updated
  cache, and the I/O effects performed (existence checks and file reads).
- `sort_values(by="score")` with its default `kind='quicksort'` (numpy
  introsort, not a stable sort) guarantees only a permutation of the rows
  whose scores are in the requested direction, nothing about the relative
  order of rows with equal scores. That contract is the relation
  `SortValuesSpec`, and the handler's possible responses are the relation
  `UnderperformingResult`; the executable `sortByScore` (a stable insertion
  sort) is one admissible resolution of the contract, used for concrete
  evaluation. Properties sensitive to tie order are settled against the
  relation, not against the executable resolution. Scores are integers.
-/

namespace BSKTraining

/-- A data table: column names plus rows of optional cells; a `none` cell is
pandas `NaN` (missing value). -/
structure DF where
  cols : List String
  rows : List (List (Option String))
deriving DecidableEq, Repr

/-- `df.fillna('')` (data_loader.py lines 64-67): every missing cell becomes
the empty string; present cells are unchanged. -/
def fillnaDF (df : DF) : DF :=
  { cols := df.cols,
    rows := df.rows.map (fun r => r.map (fun c => some (c.getD ""))) }

/-- One cell of a delimited source row as `read_csv` parses it: a field that is
blank, or absent because the row is shorter than the header, becomes `NaN`
(`none`). -/
def parseCell (fields : List String) (i : Nat) : Option String :=
  match fields[i]? with
  | some s => if s = "" then none else some s
  | none => none

/-- A source row parsed against a header of `ncols` columns. -/
def parseRow (ncols : Nat) (fields : List String) : List (Option String) :=
  (List.range ncols).map (parseCell fields)

/-- Normalization of one parsed row, as `fillna('')` acts on it: every
missing or blank cell becomes the canonical empty string. -/
def fillnaRow (row : List (Option String)) : List String :=
  row.map (fun c => c.getD "")

/-- The four entity collections loaded together as one snapshot
(data_loader.py lines 69-74). -/
structure Snapshot where
  services : DF
  bsks : DF
  deos : DF
  provisions : DF
deriving DecidableEq, Repr

/-- Filesystem state seen by the loader: which paths exist, and what reading a
CSV file yields (`none` models `pd.read_csv` raising). -/
structure FileSystem where
  fileExists : String → Bool
  readCsv : String → Option DF

/-- I/O performed by one call of the loader: the existence checks made and the
files read, in order. -/
structure Effects where
  existChecks : List String
  reads : List String
deriving DecidableEq, Repr

/-- The four required file names, in the order the loader checks and reads them
(data_loader.py lines 44-49). -/
def requiredFiles : List String :=
  ["service_master.csv", "bsk_master.csv", "deo_master.csv", "provision.csv"]

/-- The existence-check loop (data_loader.py lines 51-55): files are checked in
order and the loop exits at the first missing file. Returns the first missing
file (if any) and the list of checks performed. -/
def checkFiles (fs : FileSystem) : List String → Option String × List String
  | [] => (none, [])
  | f :: rest =>
    if fs.fileExists f then
      let (m, cs) := checkFiles fs rest
      (m, f :: cs)
    else
      (some f, [f])

/-- The four sequential `pd.read_csv` calls (data_loader.py lines 58-61); a
raising read aborts the sequence. Returns the four frames (or `none` on a
raise) and the reads attempted. -/
def readAll (fs : FileSystem) : Option (DF × DF × DF × DF) × List String :=
  match fs.readCsv "service_master.csv" with
  | none => (none, ["service_master.csv"])
  | some s =>
    match fs.readCsv "bsk_master.csv" with
    | none => (none, ["service_master.csv", "bsk_master.csv"])
    | some b =>
      match fs.readCsv "deo_master.csv" with
      | none => (none, ["service_master.csv", "bsk_master.csv", "deo_master.csv"])
      | some d =>
        match fs.readCsv "provision.csv" with
        | none => (none, requiredFiles)
        | some p => (some (s, b, d, p), requiredFiles)

/-- `load_csv_data` (data_loader.py lines 33-85) with the module-global cache
`_data_cache` passed explicitly. Returns (result, new cache, effects): the
cached snapshot untouched and no I/O when the cache is warm and no forced
reload is requested; otherwise all four files are checked, read, normalized
with `fillna('')` and stored in the cache, any missing file or raising read
yielding `none` with the cache left as it was. -/
def load_csv_data (fs : FileSystem) (cache : Option Snapshot) (force_reload : Bool) :
    Option Snapshot × Option Snapshot × Effects :=
  if cache.isSome && !force_reload then
    (cache, cache, ⟨[], []⟩)
  else
    match checkFiles fs requiredFiles with
    | (some _, cs) => (none, cache, ⟨cs, []⟩)
    | (none, cs) =>
      match readAll fs with
      | (none, rs) => (none, cache, ⟨cs, rs⟩)
      | (some (s, b, d, p), rs) =>
        let snap : Snapshot := ⟨fillnaDF s, fillnaDF b, fillnaDF d, fillnaDF p⟩
        (some snap, some snap, ⟨cs, rs⟩)

/-- `get_data_dir` (data_loader.py lines 9-26): return the first candidate path
that exists, and the first candidate when none does. Pure apart from logging,
so modelled as a function of the existence predicate and the candidate list. -/
def get_data_dir (pathExists : String → Bool) (candidates : List String) : String :=
  match candidates.find? pathExists with
  | some p => p
  | none => candidates.headD ""

/-- The concrete ordered candidate list of `get_data_dir` (data_loader.py lines
12-17), parametrized by the directory holding the backend sources. -/
def possible_paths (projectRoot : String) : List String :=
  [projectRoot ++ "/data", "/opt/render/project/src/data", "data", "../../data"]

/-- A BSK (training center) record: its unique string code and the remaining
attributes (main.py, `models.BSKMaster`). -/
structure BSKRecord where
  bsk_code : String
  attrs : List (String × String)
deriving DecidableEq, Repr

/-- A service record: its unique numeric identifier and the remaining
attributes (main.py, `models.ServiceMaster`). -/
structure ServiceRecord where
  service_id : Int
  attrs : List (String × String)
deriving DecidableEq, Repr

/-- Outcome of a single-record endpoint: the record, or an `HTTPException`
with status 404 and the given detail message. -/
inductive HTTPResult (α : Type) where
  | ok : α → HTTPResult α
  | notFound : String → HTTPResult α
deriving DecidableEq, Repr

/-- `GET /bsk/{bsk_code}` (main.py lines 123-130): first record whose
`bsk_code` equals the key, else a 404. -/
def get_bsk (bsks : List BSKRecord) (code : String) : HTTPResult BSKRecord :=
  match bsks.find? (fun r => r.bsk_code == code) with
  | some r => .ok r
  | none => .notFound "BSK not found"

/-- `GET /services/{service_id}` (main.py lines 143-150): first record whose
`service_id` equals the key, else a 404. -/
def get_service (services : List ServiceRecord) (sid : Int) : HTTPResult ServiceRecord :=
  match services.find? (fun r => r.service_id == sid) with
  | some r => .ok r
  | none => .notFound "Service not found"

/-- The `offset(skip)`/optional `limit` pagination shared by all four list
endpoints (main.py lines 113-121, 133-141, 153-161, 173-181). -/
def paginate {α : Type} (records : List α) (skip : Nat) (limit : Option Nat) : List α :=
  match limit with
  | some l => (records.drop skip).take l
  | none => records.drop skip

/-- `GET /bsk/?skip=&limit=` (main.py lines 113-121). -/
def get_bsk_list (bsks : List BSKRecord) (skip : Nat) (limit : Option Nat) : List BSKRecord :=
  paginate bsks skip limit

/-- `GET /services/?skip=&limit=` (main.py lines 133-141). -/
def get_services (services : List ServiceRecord) (skip : Nat) (limit : Option Nat) :
    List ServiceRecord :=
  paginate services skip limit

/-- One row of the external scorer's output: an entity key and its score
(`find_underperforming_bsks` is a black box returning a frame with a `score`
column). -/
structure ScoredRow where
  bsk_code : String
  score : Int
deriving DecidableEq, Repr

/-- `df.drop(c, axis=1)`: remove column `c` and the corresponding cell of every
row. -/
def dropColumn (df : DF) (c : String) : DF :=
  { cols := df.cols.filter (fun x => x != c),
    rows := df.rows.map (fun r => ((df.cols.zip r).filter (fun p => p.1 != c)).map Prod.snd) }

/-- The strip step of the handler (main.py lines 213-216): drop the
SQLAlchemy-internal `_sa_instance_state` column when present. -/
def stripInternal (df : DF) : DF :=
  if df.cols.contains "_sa_instance_state" then dropColumn df "_sa_instance_state" else df

/-- The four frames handed to `find_underperforming_bsks` after the strip loop
(main.py lines 207-219). -/
def scorer_inputs (bsks provisions deos services : DF) : DF × DF × DF × DF :=
  (stripInternal bsks, stripInternal provisions, stripInternal deos, stripInternal services)

/-- Ascending comparison on the `score` column. -/
def scoreLeAsc (a b : ScoredRow) : Prop :=
  a.score ≤ b.score

/-- Descending comparison on the `score` column. -/
def scoreLeDesc (a b : ScoredRow) : Prop :=
  b.score ≤ a.score

instance : DecidableRel scoreLeAsc :=
  fun a b => inferInstanceAs (Decidable (a.score ≤ b.score))

instance : DecidableRel scoreLeDesc :=
  fun a b => inferInstanceAs (Decidable (b.score ≤ a.score))

instance : IsTotal ScoredRow scoreLeAsc :=
  ⟨fun a b => Int.le_total a.score b.score⟩

instance : IsTrans ScoredRow scoreLeAsc :=
  ⟨fun _ _ _ h h' => le_trans h h'⟩

instance : IsTotal ScoredRow scoreLeDesc :=
  ⟨fun a b => Int.le_total b.score a.score⟩

instance : IsTrans ScoredRow scoreLeDesc :=
  ⟨fun _ _ _ h h' => le_trans h' h⟩

/-- One admissible resolution of `result_df.sort_values(by="score",
ascending=ascending)` (main.py line 223): a stable insertion sort on the score
column in the requested direction. The code's `sort_values` uses the default
`kind='quicksort'`, which promises only a permutation sorted by score (see
`SortValuesSpec` below), so this executable choice is used only for concrete
evaluation and for properties that hold of every admissible resolution. -/
def sortByScore (ascending : Bool) (rows : List ScoredRow) : List ScoredRow :=
  if ascending then List.insertionSort scoreLeAsc rows
  else List.insertionSort scoreLeDesc rows

/-- `GET /underperforming_bsks/` (main.py lines 192-226): strip the internal
column from all four collections, hand them to the external scorer, sort the
scored rows by score — ascending exactly when `sort_order` is the string
`"asc"` (line 222) — and truncate to the first `num_bsks` rows. In main.py
`num_bsks` defaults to 50 and `sort_order` to `"asc"`. -/
def get_underperforming_bsks (scorer : DF → DF → DF → DF → List ScoredRow)
    (bsks provisions deos services : DF) (num_bsks : Nat) (sort_order : String) :
    List ScoredRow :=
  let t := scorer_inputs bsks provisions deos services
  let result := scorer t.1 t.2.1 t.2.2.1 t.2.2.2
  let ascending := sort_order == "asc"
  (sortByScore ascending result).take num_bsks

/-- The score ordering in the requested direction. -/
def scoreRel : Bool → ScoredRow → ScoredRow → Prop
  | true => scoreLeAsc
  | false => scoreLeDesc

instance : (ascending : Bool) → DecidableRel (scoreRel ascending)
  | true => inferInstanceAs (DecidableRel scoreLeAsc)
  | false => inferInstanceAs (DecidableRel scoreLeDesc)

/-- Everything `result_df.sort_values(by="score", ascending=ascending)` with
its default `kind='quicksort'` guarantees (main.py line 223): the output is a
permutation of the input whose scores are in the requested direction. numpy's
default quicksort is not a stable sort, so nothing constrains the relative
order of rows with equal scores. -/
def SortValuesSpec (ascending : Bool) (input output : List ScoredRow) : Prop :=
  output.Perm input ∧ output.Pairwise (scoreRel ascending)

/-- The `/underperforming_bsks/` handler as a relation on its possible
responses (main.py lines 192-226): `res` is a possible response iff it is the
`num_bsks`-prefix of some output `sort_values` may produce from the scorer's
rows on the stripped frames. -/
def UnderperformingResult (scorer : DF → DF → DF → DF → List ScoredRow)
    (bsks provisions deos services : DF) (num_bsks : Nat) (sort_order : String)
    (res : List ScoredRow) : Prop :=
  let t := scorer_inputs bsks provisions deos services
  ∃ sorted, SortValuesSpec (sort_order == "asc") (scorer t.1 t.2.1 t.2.2.1 t.2.2.2) sorted
    ∧ res = sorted.take num_bsks

/-! ### Helper lemmas -/

/-- The executable model's response is one of the responses the handler's
contract admits: the stable resolution of the sort. -/
theorem get_underperforming_bsks_admissible (scorer : DF → DF → DF → DF → List ScoredRow)
    (bsks provisions deos services : DF) (n : Nat) (so : String) :
    UnderperformingResult scorer bsks provisions deos services n so
      (get_underperforming_bsks scorer bsks provisions deos services n so) := by
  refine ⟨sortByScore (so == "asc")
    (scorer (stripInternal bsks) (stripInternal provisions)
      (stripInternal deos) (stripInternal services)), ⟨?_, ?_⟩, rfl⟩
  · cases so == "asc" <;> exact List.perm_insertionSort _ _
  · cases so == "asc"
    · exact List.sorted_insertionSort scoreLeDesc _
    · exact List.sorted_insertionSort scoreLeAsc _

/-- `find?` returns the unique element satisfying the predicate when there is
exactly one. -/
theorem find?_eq_of_unique {α : Type} (p : α → Bool) (r : α) (l : List α)
    (hr : r ∈ l) (hp : p r = true) (hu : ∀ q ∈ l, p q = true → q = r) :
    l.find? p = some r := by
  induction l with
  | nil => cases hr
  | cons x xs ih =>
    by_cases hx : p x = true
    · rw [List.find?_cons_of_pos _ hx]
      exact congrArg some (hu x (List.mem_cons_self x xs) hx)
    · rw [List.find?_cons_of_neg _ (by simpa using hx)]
      rcases List.mem_cons.mp hr with h | h
      · exact absurd (h ▸ hp) hx
      · exact ih h (fun q hq hpq => hu q (List.mem_cons_of_mem x hq) hpq)

/-- After the strip step, the SQLAlchemy-internal column is never among a
frame's columns. -/
theorem stripInternal_no_internal (df : DF) :
    (stripInternal df).cols.contains "_sa_instance_state" = false := by
  unfold stripInternal
  split
  · rw [Bool.eq_false_iff]
    intro hc
    rw [List.contains_iff_exists_mem_beq] at hc
    obtain ⟨a, ha, hbeq⟩ := hc
    simp only [dropColumn, List.mem_filter] at ha
    rw [← beq_iff_eq.mp hbeq] at ha
    simp at ha
  · rename_i h
    exact Bool.eq_false_iff.mpr h

/-- The first missing file found by the existence-check loop is the first
element of the list that does not exist. -/
theorem checkFiles_fst (fs : FileSystem) :
    ∀ l : List String, (checkFiles fs l).1 = l.find? (fun g => !fs.fileExists g)
  | [] => rfl
  | x :: xs => by
    by_cases hx : fs.fileExists x = true
    · rw [List.find?_cons_of_neg _ (by simp [hx])]
      unfold checkFiles
      rw [if_pos hx]
      have h := checkFiles_fst fs xs
      rcases hcf : checkFiles fs xs with ⟨m, cs⟩
      rw [hcf] at h
      simpa using h
    · rw [List.find?_cons_of_pos _ (by simpa using hx)]
      unfold checkFiles
      rw [if_neg hx]

/-! ### The claims -/

/-- Claim C4: whenever the cache already holds a snapshot and `load_csv_data`
is called with `force_reload=False`, it returns exactly the held snapshot, the
cache is unchanged, and no I/O at all is performed: no file-existence checks
and no file reads. -/
theorem cached_load_returns_snapshot_without_io (fs : FileSystem) (snap : Snapshot) :
    load_csv_data fs (some snap) false = (some snap, some snap, ⟨[], []⟩) := rfl

/-- Claim C9: the four frames handed to the external scorer by
`get_underperforming_bsks` are exactly the stripped collections, and none of
them carries the SQLAlchemy-internal `_sa_instance_state` column. -/
theorem scorer_receives_stripped_frames
    (scorer : DF → DF → DF → DF → List ScoredRow)
    (bsks provisions deos services : DF) (n : Nat) (so : String) :
    (get_underperforming_bsks scorer bsks provisions deos services n so =
      (sortByScore (so == "asc")
        (scorer (stripInternal bsks) (stripInternal provisions)
          (stripInternal deos) (stripInternal services))).take n)
    ∧ (scorer_inputs bsks provisions deos services).1.cols.contains
        "_sa_instance_state" = false
    ∧ (scorer_inputs bsks provisions deos services).2.1.cols.contains
        "_sa_instance_state" = false
    ∧ (scorer_inputs bsks provisions deos services).2.2.1.cols.contains
        "_sa_instance_state" = false
    ∧ (scorer_inputs bsks provisions deos services).2.2.2.cols.contains
        "_sa_instance_state" = false :=
  ⟨rfl, stripInternal_no_internal _, stripInternal_no_internal _,
    stripInternal_no_internal _, stripInternal_no_internal _⟩

/-- Claim C8: `get_data_dir` returns the first candidate path that exists; when
no candidate exists it returns the first candidate; and (being a pure function
of the existence predicate) its result is always drawn from the candidate
list. -/
theorem get_data_dir_resolution (ex : String → Bool) (l₁ l₂ : List String)
    (p c : String) (cs : List String) :
    ((∀ q ∈ l₁, ex q = false) → ex p = true → get_data_dir ex (l₁ ++ p :: l₂) = p)
    ∧ ((∀ q ∈ c :: cs, ex q = false) → get_data_dir ex (c :: cs) = c)
    ∧ get_data_dir ex (c :: cs) ∈ c :: cs := by
  refine ⟨?_, ?_, ?_⟩
  · intro hnone hp
    have h1 : l₁.find? ex = none :=
      List.find?_eq_none.mpr (fun x hx => by simp [hnone x hx])
    unfold get_data_dir
    rw [List.find?_append, h1, Option.none_or, List.find?_cons_of_pos _ hp]
  · intro hall
    have h1 : (c :: cs).find? ex = none :=
      List.find?_eq_none.mpr (fun x hx => by simp [hall x hx])
    unfold get_data_dir
    rw [h1]
    rfl
  · unfold get_data_dir
    cases hf : (c :: cs).find? ex with
    | some q => exact List.mem_of_find?_eq_some hf
    | none => exact List.mem_cons_self c cs

/-- Witness for C8 on the concrete candidate list: with only the relative path
`data` existing, the resolver picks it. -/
theorem get_data_dir_resolution_witness :
    get_data_dir (fun s => s == "data") (possible_paths "/app") = "data" := by
  have h := (get_data_dir_resolution (fun s => s == "data")
      ["/app/data", "/opt/render/project/src/data"] ["../../data"] "data" "x" []).1
      (by decide) (by decide)
  simpa [possible_paths] using h

/-- Claim C6: for all entities, `list(skip=s, limit=l)` returns the records at
positions `s, s+1, …` of the stored order, at most `l` of them; with `limit`
omitted it returns everything after the first `s`. -/
theorem list_pagination_window (bsks : List BSKRecord) (services : List ServiceRecord)
    (s l i : Nat) :
    (get_bsk_list bsks s (some l)).length ≤ l
    ∧ (i < l → (get_bsk_list bsks s (some l))[i]? = bsks[s + i]?)
    ∧ get_bsk_list bsks s none = bsks.drop s
    ∧ (get_bsk_list bsks s none)[i]? = bsks[s + i]?
    ∧ (get_services services s (some l)).length ≤ l
    ∧ (i < l → (get_services services s (some l))[i]? = services[s + i]?)
    ∧ get_services services s none = services.drop s := by
  unfold get_bsk_list get_services paginate
  refine ⟨List.length_take_le _ _, fun hi => ?_, rfl, ?_,
    List.length_take_le _ _, fun hi => ?_, rfl⟩
  · rw [List.getElem?_take_of_lt hi, List.getElem?_drop]
  · rw [List.getElem?_drop]
  · rw [List.getElem?_take_of_lt hi, List.getElem?_drop]

/-- Witness for C6: skipping one of three records and limiting to one returns
exactly the second record. -/
theorem list_pagination_window_witness :
    (get_bsk_list [⟨"B1", []⟩, ⟨"B2", []⟩, ⟨"B3", []⟩] 1 (some 1))[0]? = some ⟨"B2", []⟩ := by
  have h := (list_pagination_window [⟨"B1", []⟩, ⟨"B2", []⟩, ⟨"B3", []⟩] [] 1 1 0).2.1
    (by decide)
  exact h.trans (by decide)

/-- Claim C2: on a first load (empty cache), if any of the four required files
is absent, `load_csv_data` returns no data at all and the cache stays empty —
no entity collection is exposed, not even those whose files exist. -/
theorem first_load_all_or_nothing (fs : FileSystem) (f : String) (force : Bool)
    (hf : f ∈ requiredFiles) (hm : fs.fileExists f = false) :
    (load_csv_data fs none force).1 = none
    ∧ (load_csv_data fs none force).2.1 = none := by
  have h1 : (requiredFiles.find? (fun g => !fs.fileExists g)).isSome :=
    List.find?_isSome.mpr ⟨f, hf, by simp [hm]⟩
  obtain ⟨g, hg⟩ := Option.isSome_iff_exists.mp h1
  have hg2 : (checkFiles fs requiredFiles).1 = some g := by
    rw [checkFiles_fst]
    exact hg
  rcases hc : checkFiles fs requiredFiles with ⟨m, cs⟩
  rw [hc] at hg2
  simp only at hg2
  subst hg2
  constructor <;> simp [load_csv_data, hc]

/-- Witness for C2: with an entirely empty filesystem, a first load exposes
nothing and caches nothing. -/
theorem first_load_all_or_nothing_witness :
    (load_csv_data ⟨fun _ => false, fun _ => none⟩ none true).1 = none
    ∧ (load_csv_data ⟨fun _ => false, fun _ => none⟩ none true).2.1 = none :=
  first_load_all_or_nothing ⟨fun _ => false, fun _ => none⟩ "bsk_master.csv" true
    (by decide) rfl

/-- Claim C3: when the cache holds a snapshot and a forced reload fails (a
required file is missing or a read raises), the prior snapshot is not
discarded: the cache still holds it, and a subsequent call without
`force_reload` returns it. -/
theorem forced_reload_failure_retains_snapshot (fs fs₂ : FileSystem) (snap : Snapshot)
    (hfail : (load_csv_data fs (some snap) true).1 = none) :
    (load_csv_data fs (some snap) true).2.1 = some snap
    ∧ (load_csv_data fs₂ (some snap) false).1 = some snap := by
  refine ⟨?_, rfl⟩
  unfold load_csv_data at hfail ⊢
  simp only [Option.isSome_some, Bool.not_true, Bool.and_false, Bool.false_eq_true,
    if_false] at hfail ⊢
  rcases hc : checkFiles fs requiredFiles with ⟨m, cs⟩
  cases m with
  | some g => simp [hc]
  | none =>
    rcases hr : readAll fs with ⟨res, rs⟩
    cases res with
    | none => simp [hc, hr]
    | some t =>
      obtain ⟨s, b, d, p⟩ := t
      rw [hc, hr] at hfail
      simp at hfail

/-- Witness for C3: a forced reload against an empty filesystem fails and the
previously cached snapshot survives. -/
theorem forced_reload_failure_retains_snapshot_witness :
    (load_csv_data ⟨fun _ => false, fun _ => none⟩
        (some ⟨⟨[], []⟩, ⟨[], []⟩, ⟨[], []⟩, ⟨[], []⟩⟩) true).2.1 =
      some ⟨⟨[], []⟩, ⟨[], []⟩, ⟨[], []⟩, ⟨[], []⟩⟩
    ∧ (load_csv_data ⟨fun _ => false, fun _ => none⟩
        (some ⟨⟨[], []⟩, ⟨[], []⟩, ⟨[], []⟩, ⟨[], []⟩⟩) false).1 =
      some ⟨⟨[], []⟩, ⟨[], []⟩, ⟨[], []⟩, ⟨[], []⟩⟩ :=
  forced_reload_failure_retains_snapshot ⟨fun _ => false, fun _ => none⟩
    ⟨fun _ => false, fun _ => none⟩ ⟨⟨[], []⟩, ⟨[], []⟩, ⟨[], []⟩, ⟨[], []⟩⟩ (by decide)

/-- Claim C5: get-by-key returns the unique record whose identifier equals the
key when one exists, and a 404-style NotFound outcome otherwise — the function
is total (no unhandled exception), and NotFound is also what an empty
collection yields, distinct from the list endpoints' empty-list result. -/
theorem get_by_key_contract (bsks : List BSKRecord) (services : List ServiceRecord)
    (code : String) (sid : Int) :
    (∀ r ∈ bsks, r.bsk_code = code → (∀ q ∈ bsks, q.bsk_code = code → q = r) →
        get_bsk bsks code = .ok r)
    ∧ ((∀ r ∈ bsks, r.bsk_code ≠ code) → get_bsk bsks code = .notFound "BSK not found")
    ∧ get_bsk [] code = .notFound "BSK not found"
    ∧ get_bsk_list [] 0 none = []
    ∧ (∀ r ∈ services, r.service_id = sid →
        (∀ q ∈ services, q.service_id = sid → q = r) →
        get_service services sid = .ok r)
    ∧ ((∀ r ∈ services, r.service_id ≠ sid) →
        get_service services sid = .notFound "Service not found") := by
  refine ⟨?_, ?_, rfl, rfl, ?_, ?_⟩
  · intro r hr hcode huniq
    unfold get_bsk
    rw [find?_eq_of_unique (fun q => q.bsk_code == code) r bsks hr (by simp [hcode])
      (fun q hq hpq => huniq q hq (by simpa using hpq))]
  · intro hall
    unfold get_bsk
    rw [List.find?_eq_none.mpr (fun q hq => by simp [hall q hq])]
  · intro r hr hid huniq
    unfold get_service
    rw [find?_eq_of_unique (fun q => q.service_id == sid) r services hr (by simp [hid])
      (fun q hq hpq => huniq q hq (by simpa using hpq))]
  · intro hall
    unfold get_service
    rw [List.find?_eq_none.mpr (fun q hq => by simp [hall q hq])]

/-- Witness for C5: looking up the second of two training centers returns it,
and looking up an absent code returns the 404 outcome. -/
theorem get_by_key_contract_witness :
    get_bsk [⟨"K001", []⟩, ⟨"K002", []⟩] "K002" = .ok ⟨"K002", []⟩
    ∧ get_bsk [⟨"K001", []⟩, ⟨"K002", []⟩] "K999" = .notFound "BSK not found" := by
  constructor
  · exact (get_by_key_contract [⟨"K001", []⟩, ⟨"K002", []⟩] [] "K002" 0).1
      ⟨"K002", []⟩ (by decide) (by decide) (by decide)
  · exact (get_by_key_contract [⟨"K001", []⟩, ⟨"K002", []⟩] [] "K999" 0).2.1 (by decide)

/-- Claim C7: normalization maps every absent or blank cell to the canonical
empty string — a row with a blank field and a row missing the field entirely
normalize identically — every normalized row has every defined column, and
every cell of a `fillna`-normalized frame is present (no unrepresentable
null). -/
theorem normalizer_canonical_empty (ncols i : Nat) (blankRow shortRow anyRow : List String)
    (hb : blankRow[i]? = some "") (hs : shortRow.length ≤ i) :
    (i < ncols → (fillnaRow (parseRow ncols blankRow))[i]? = some "")
    ∧ (fillnaRow (parseRow ncols blankRow))[i]? = (fillnaRow (parseRow ncols shortRow))[i]?
    ∧ (fillnaRow (parseRow ncols anyRow)).length = ncols
    ∧ (∀ df : DF, ∀ r ∈ (fillnaDF df).rows, ∀ c ∈ r, c.isSome = true) := by
  have hcb : parseCell blankRow i = none := by
    simp [parseCell, hb]
  have hcs : parseCell shortRow i = none := by
    simp [parseCell, List.getElem?_eq_none hs]
  have key : ∀ (row : List String), parseCell row i = none → i < ncols →
      (fillnaRow (parseRow ncols row))[i]? = some "" := by
    intro row hrow hi
    simp [fillnaRow, parseRow, List.getElem?_range hi, hrow]
  have key2 : ∀ (row : List String), ¬ i < ncols →
      (fillnaRow (parseRow ncols row))[i]? = none := by
    intro row hi
    apply List.getElem?_eq_none
    simp [fillnaRow, parseRow, Nat.le_of_not_lt hi]
  refine ⟨key blankRow hcb, ?_, ?_, ?_⟩
  · by_cases hi : i < ncols
    · rw [key blankRow hcb hi, key shortRow hcs hi]
    · rw [key2 blankRow hi, key2 shortRow hi]
  · simp [fillnaRow, parseRow]
  · intro df r hr c hc
    simp only [fillnaDF, List.mem_map] at hr
    obtain ⟨r₀, _, rfl⟩ := hr
    simp only [List.mem_map] at hc
    obtain ⟨c₀, _, rfl⟩ := hc
    rfl

/-- Witness for C7: with a two-column header, a row whose second field is blank
and a row with only one field both normalize to the empty string in the second
column. -/
theorem normalizer_canonical_empty_witness :
    (fillnaRow (parseRow 2 ["x", ""]))[1]? = some ""
    ∧ (fillnaRow (parseRow 2 ["x", ""]))[1]? = (fillnaRow (parseRow 2 ["y"]))[1]? := by
  have h := normalizer_canonical_empty 2 1 ["x", ""] ["y"] [] (by decide) (by decide)
  exact ⟨h.1 (by decide), h.2.1⟩

/-- Counterexample to claim C1 as stated: at the claim's own example input
(scorer output with scores `[5, 1, 9, 1]`, `num_bsks = 3`,
`sort_order = "asc"`), the handler's contract admits the response with the two
score-1 rows in the reverse of the scorer's relative order — `sort_values`
with its default unstable quicksort makes no tie-order promise, so the claimed
output (score-1 rows in original order) is not guaranteed by the code. -/
theorem rank_by_score_tie_order_counterexample :
    UnderperformingResult
        (fun _ _ _ _ => [⟨"A", 5⟩, ⟨"B", 1⟩, ⟨"C", 9⟩, ⟨"D", 1⟩])
        ⟨[], []⟩ ⟨[], []⟩ ⟨[], []⟩ ⟨[], []⟩ 3 "asc"
        [⟨"D", 1⟩, ⟨"B", 1⟩, ⟨"A", 5⟩]
    ∧ ([⟨"D", 1⟩, ⟨"B", 1⟩, ⟨"A", 5⟩] : List ScoredRow)
        ≠ [⟨"B", 1⟩, ⟨"D", 1⟩, ⟨"A", 5⟩] := by
  refine ⟨⟨[⟨"D", 1⟩, ⟨"B", 1⟩, ⟨"A", 5⟩, ⟨"C", 9⟩], ⟨?_, ?_⟩, rfl⟩, by decide⟩
  · decide
  · decide

/-- Claim C1 (amended): for every collection of scored rows returned by the
external scorer, every response the handler can return with
`sort_order="asc"` is sorted ascending by score, holds at most `num_bsks`
rows, and draws its rows from the scorer's output; for every other
`sort_order` the response is sorted descending. The relative order of rows
with equal scores is not specified (`sort_values` defaults to an unstable
quicksort): on scorer output with scores `[5, 1, 9, 1]` and `num_bsks = 3`,
every admissible response consists of the two score-1 rows — in some order —
followed by the score-5 row. The executable model's response is itself
admissible. -/
theorem rank_by_score_sorted_window (out res : List ScoredRow)
    (bsks provisions deos services : DF) (n : Nat) :
    (UnderperformingResult (fun _ _ _ _ => out) bsks provisions deos services n "asc" res →
      List.Pairwise scoreLeAsc res ∧ res.length ≤ n ∧ List.Subperm res out)
    ∧ (∀ so : String, so ≠ "asc" →
        UnderperformingResult (fun _ _ _ _ => out) bsks provisions deos services n so res →
          List.Pairwise scoreLeDesc res)
    ∧ UnderperformingResult (fun _ _ _ _ => out) bsks provisions deos services n "asc"
        (get_underperforming_bsks (fun _ _ _ _ => out) bsks provisions deos services n "asc")
    ∧ (UnderperformingResult
          (fun _ _ _ _ => [⟨"A", 5⟩, ⟨"B", 1⟩, ⟨"C", 9⟩, ⟨"D", 1⟩])
          bsks provisions deos services 3 "asc" res →
        res.map ScoredRow.score = [1, 1, 5]
          ∧ res.Perm [⟨"B", 1⟩, ⟨"D", 1⟩, ⟨"A", 5⟩]) := by
  refine ⟨?_, ?_, get_underperforming_bsks_admissible _ _ _ _ _ _ _, ?_⟩
  · rintro ⟨sorted, ⟨hperm, hpair⟩, rfl⟩
    refine ⟨?_, List.length_take_le n _, ?_⟩
    · exact hpair.sublist (List.take_sublist n _)
    · exact ((List.take_sublist n sorted).subperm).trans hperm.subperm
  · intro so hso
    rintro ⟨sorted, ⟨hperm, hpair⟩, rfl⟩
    rw [beq_eq_false_iff_ne.mpr hso] at hpair
    exact hpair.sublist (List.take_sublist n _)
  · rintro ⟨sorted, ⟨hperm, hpair⟩, rfl⟩
    have hperm4 : sorted.Perm [⟨"A", 5⟩, ⟨"B", 1⟩, ⟨"C", 9⟩, ⟨"D", 1⟩] := hperm
    rw [show ("asc" == "asc") = true from rfl] at hpair
    have hscores : sorted.map ScoredRow.score = [1, 1, 5, 9] := by
      have hp1 : (sorted.map ScoredRow.score).Perm [5, 1, 9, 1] :=
        hperm4.map ScoredRow.score
      have hs1 : (sorted.map ScoredRow.score).Pairwise (fun a b : Int => a ≤ b) :=
        hpair.map ScoredRow.score (fun _ _ h => h)
      exact List.eq_of_perm_of_sorted (hp1.trans (by decide)) hs1 (by decide)
    have h9 : (sorted.drop 3).map ScoredRow.score = [9] := by
      rw [List.map_drop, hscores]
      rfl
    obtain ⟨z, hz, hz9⟩ : ∃ z : ScoredRow, sorted.drop 3 = [z] ∧ z.score = 9 := by
      rcases hd : sorted.drop 3 with _ | ⟨z, t⟩
      · rw [hd] at h9
        simp at h9
      · rw [hd] at h9
        rcases t with _ | ⟨v, t⟩
        · simp at h9
          exact ⟨z, rfl, h9⟩
        · simp at h9
    have hzC : z = ⟨"C", 9⟩ := by
      have hzmem : z ∈ sorted :=
        List.mem_of_mem_drop (hz ▸ List.mem_singleton_self z)
      have hzin := hperm4.subset hzmem
      simp only [List.mem_cons, List.not_mem_nil, or_false] at hzin
      rcases hzin with rfl | rfl | rfl | rfl
      · exact absurd hz9 (by decide)
      · exact absurd hz9 (by decide)
      · rfl
      · exact absurd hz9 (by decide)
    subst hzC
    have h1 : (sorted.take 3 ++ ([⟨"C", 9⟩] : List ScoredRow)).Perm
        [⟨"A", 5⟩, ⟨"B", 1⟩, ⟨"C", 9⟩, ⟨"D", 1⟩] := by
      rw [← hz, List.take_append_drop]
      exact hperm4
    have h2 : (sorted.take 3).Perm [⟨"A", 5⟩, ⟨"B", 1⟩, ⟨"D", 1⟩] :=
      (List.perm_append_comm.trans
        (h1.trans (by decide :
          ([⟨"A", 5⟩, ⟨"B", 1⟩, ⟨"C", 9⟩, ⟨"D", 1⟩] : List ScoredRow).Perm
            (⟨"C", 9⟩ :: [⟨"A", 5⟩, ⟨"B", 1⟩, ⟨"D", 1⟩])))).cons_inv
    constructor
    · rw [List.map_take, hscores]
      rfl
    · exact h2.trans (by decide)

/-- Witness for the amended C1: on the `[5, 1, 9, 1]` example the executable
model's response is admissible, and therefore carries scores `[1, 1, 5]` and
is a permutation of the two score-1 rows followed by the score-5 row. -/
theorem rank_by_score_sorted_window_witness :
    (get_underperforming_bsks
        (fun _ _ _ _ => [⟨"A", 5⟩, ⟨"B", 1⟩, ⟨"C", 9⟩, ⟨"D", 1⟩])
        ⟨[], []⟩ ⟨[], []⟩ ⟨[], []⟩ ⟨[], []⟩ 3 "asc").map ScoredRow.score = [1, 1, 5]
    ∧ (get_underperforming_bsks
        (fun _ _ _ _ => [⟨"A", 5⟩, ⟨"B", 1⟩, ⟨"C", 9⟩, ⟨"D", 1⟩])
        ⟨[], []⟩ ⟨[], []⟩ ⟨[], []⟩ ⟨[], []⟩ 3 "asc").Perm
      [⟨"B", 1⟩, ⟨"D", 1⟩, ⟨"A", 5⟩] := by
  have h := rank_by_score_sorted_window [⟨"A", 5⟩, ⟨"B", 1⟩, ⟨"C", 9⟩, ⟨"D", 1⟩]
    (get_underperforming_bsks
      (fun _ _ _ _ => [⟨"A", 5⟩, ⟨"B", 1⟩, ⟨"C", 9⟩, ⟨"D", 1⟩])
      ⟨[], []⟩ ⟨[], []⟩ ⟨[], []⟩ ⟨[], []⟩ 3 "asc")
    ⟨[], []⟩ ⟨[], []⟩ ⟨[], []⟩ ⟨[], []⟩ 3
  exact h.2.2.2 h.2.2.1

/-- Claim C10: ascending order is selected only when `sort_order` is exactly
the string `"asc"`; every other value (e.g. `"ASC"`, `"ascending"`, a typo)
yields a descending sort, and no value is rejected — the handler still returns
a truncated, descending-sorted list. -/
theorem sort_order_strict_match (out : List ScoredRow)
    (bsks provisions deos services : DF) (n : Nat) (so : String) (h : so ≠ "asc") :
    get_underperforming_bsks (fun _ _ _ _ => out) bsks provisions deos services n so
      = (sortByScore false out).take n
    ∧ List.Pairwise scoreLeDesc
        (get_underperforming_bsks (fun _ _ _ _ => out) bsks provisions deos services n so)
    ∧ (get_underperforming_bsks (fun _ _ _ _ => out)
        bsks provisions deos services n so).length ≤ n := by
  have hbeq : (so == "asc") = false := beq_eq_false_iff_ne.mpr h
  have heq : get_underperforming_bsks (fun _ _ _ _ => out) bsks provisions deos services n so
      = (sortByScore false out).take n := by
    show (sortByScore (so == "asc") out).take n = (sortByScore false out).take n
    rw [hbeq]
  refine ⟨heq, ?_, ?_⟩
  · rw [heq]
    have hsort : List.Pairwise scoreLeDesc (List.insertionSort scoreLeDesc out) :=
      List.sorted_insertionSort scoreLeDesc out
    exact hsort.sublist (List.take_sublist n _)
  · rw [heq]
    exact List.length_take_le n _

/-- Witness for C10: the uppercase string `"ASC"` is not the literal `"asc"`,
so the handler sorts descending: scores `[5, 1, 9, 1]` come back `[9, 5, 1]`
after truncation to 3. -/
theorem sort_order_strict_match_witness :
    get_underperforming_bsks
        (fun _ _ _ _ => [⟨"A", 5⟩, ⟨"B", 1⟩, ⟨"C", 9⟩, ⟨"D", 1⟩])
        ⟨[], []⟩ ⟨[], []⟩ ⟨[], []⟩ ⟨[], []⟩ 3 "ASC"
      = [⟨"C", 9⟩, ⟨"A", 5⟩, ⟨"B", 1⟩] := by
  have h := (sort_order_strict_match [⟨"A", 5⟩, ⟨"B", 1⟩, ⟨"C", 9⟩, ⟨"D", 1⟩]
      ⟨[], []⟩ ⟨[], []⟩ ⟨[], []⟩ ⟨[], []⟩ 3 "ASC" (by decide)).1
  rw [h]
  decide

end BSKTraining
